import Mathlib

/-!
Shallow embedding of the contact manager in src/hw#2.py: validated phone and
birthday fields, contact records, an address book with two birthday queries,
command handlers behind an error translating wrapper, a line oriented session
loop and pickle persistence.  Python machine behaviour is modelled explicitly:
raised exceptions as an Except monad over the three exception kinds the
program raises or catches, dict as an insertion ordered association list, and
datetime.date as a year/month/day triple with proleptic Gregorian arithmetic.
-/

set_option autoImplicit false

namespace HW2

/-- Exception kinds the program raises or catches (src lines 176-186 catch
exactly these): KeyError is the NotFoundError of the spec taxonomy,
ValueError covers both FormatError and ArgumentCountError, IndexError is
caught by the wrapper but never raised by a handler. -/
inductive PyErr where
  | keyError (msg : String)
  | valueError (msg : String)
  | indexError (msg : String)
deriving DecidableEq

/-- Exceptions the two birthday query methods can raise; NOTHING in the
program catches any of them (the methods are never called from a wrapped
handler).  The TypeError and AttributeError arise from using the raw
string that the Birthday constructor left in the value slot (see
birthdayInit) as if it were a date; the ValueError is the day range error
of the datetime constructor, reachable only on a date valued slot. -/
inductive PyFatal where
  | typeError (msg : String)
  | attributeError (msg : String)
  | valueError (msg : String)
deriving DecidableEq

/-- A datetime.date value: a year/month/day triple. -/
structure PyDate where
  year : Nat
  month : Nat
  day : Nat
deriving DecidableEq

/-- Gregorian leap year test, as in the datetime module. -/
def isLeap (y : Nat) : Bool :=
  decide ((y % 4 = 0 ∧ y % 100 ≠ 0) ∨ y % 400 = 0)

/-- Length of a month, as in the datetime module. -/
def daysInMonth (y m : Nat) : Nat :=
  if m = 2 then (if isLeap y then 29 else 28)
  else if m = 4 ∨ m = 6 ∨ m = 9 ∨ m = 11 then 30
  else 31

/-- Days in the months strictly before month m of a non leap year (the
table the datetime module uses). -/
def daysBeforeMonthBase (m : Nat) : Nat :=
  match m with
  | 1 => 0 | 2 => 31 | 3 => 59 | 4 => 90 | 5 => 120 | 6 => 151 | 7 => 181
  | 8 => 212 | 9 => 243 | 10 => 273 | 11 => 304 | 12 => 334 | _ => 0

/-- Days in the months of year y strictly before month m. -/
def daysBeforeMonth (y m : Nat) : Nat :=
  daysBeforeMonthBase m + (if 2 < m ∧ isLeap y = true then 1 else 0)

/-- Days strictly before January 1 of year y, counted from year 1. -/
def daysBeforeYear (y : Nat) : Nat :=
  365 * (y - 1) + (y - 1) / 4 + (y - 1) / 400 - (y - 1) / 100

/-- date.toordinal: proleptic Gregorian day number, day 1 being 0001-01-01. -/
def toordinal (d : PyDate) : Nat :=
  daysBeforeYear d.year + daysBeforeMonth d.year d.month + d.day

/-- date.weekday: 0 = Monday .. 6 = Sunday (0001-01-01 was a Monday). -/
def weekday (d : PyDate) : Nat := (toordinal d + 6) % 7

/-- The field bounds the datetime constructor enforces.  The model leaves
the year unbounded above; MAXYEAR never matters in this program because
every constructed year comes from a four digit token or from the current
year, both far below the overflow region. -/
def validDateB (d : PyDate) : Bool :=
  decide (1 ≤ d.year ∧ 1 ≤ d.month ∧ d.month ≤ 12 ∧ 1 ≤ d.day ∧
          d.day ≤ daysInMonth d.year d.month)

/-- The next calendar day (adding timedelta(days=1) to a valid date). -/
def succDate (d : PyDate) : PyDate :=
  if d.day < daysInMonth d.year d.month then ⟨d.year, d.month, d.day + 1⟩
  else if d.month < 12 then ⟨d.year, d.month + 1, 1⟩
  else ⟨d.year + 1, 1, 1⟩

/-- Adding timedelta(days=n) to a date. -/
def addDays (d : PyDate) : Nat → PyDate
  | 0 => d
  | n + 1 => succDate (addDays d n)

/-- Comparison of dates; on valid dates the ordinal order used here agrees
with the field tuple order the datetime module compares with. -/
def dateLt (a b : PyDate) : Bool := decide (toordinal a < toordinal b)

/-- Date difference in days, the .days of a timedelta between two dates. -/
def dateSub (a b : PyDate) : Int := (toordinal a : Int) - (toordinal b : Int)

/-- date.replace with a new year: the datetime constructor revalidates the
triple; starting from a valid date, the only way the revalidation can fail
is a February 29 mapped into a non leap year, which raises the day range
ValueError. -/
def replaceYear (d : PyDate) (y : Nat) : Except PyFatal PyDate :=
  if validDateB ⟨y, d.month, d.day⟩ then Except.ok ⟨y, d.month, d.day⟩
  else Except.error (PyFatal.valueError "day is out of range for month")

/-- The datetime(year, month, day) constructor as find_next_birthday would
call it on a date valued field: month and day would come from an existing
valid date, so the only failure the revalidation can produce is again the
day range ValueError. -/
def mkDate (y m d : Nat) : Except PyFatal PyDate :=
  if validDateB ⟨y, m, d⟩ then Except.ok ⟨y, m, d⟩
  else Except.error (PyFatal.valueError "day is out of range for month")

/-- Zero pad a number to two digits, as the %m and %d strftime directives do. -/
def pad2 (n : Nat) : String :=
  if n < 10 then "0" ++ toString n else toString n

/-- Zero pad a number to four digits, as the %Y strftime directive renders
the years this program produces. -/
def pad4 (n : Nat) : String :=
  if n < 10 then "000" ++ toString n
  else if n < 100 then "00" ++ toString n
  else if n < 1000 then "0" ++ toString n
  else toString n

/-- strftime with the format %Y.%m.%d (src line 170). -/
def strftimeYmd (d : PyDate) : String :=
  pad4 d.year ++ "." ++ pad2 d.month ++ "." ++ pad2 d.day

/-- str() of a date value: the ISO rendering YYYY-MM-DD. -/
def isoStr (d : PyDate) : String :=
  pad4 d.year ++ "-" ++ pad2 d.month ++ "-" ++ pad2 d.day

/-- ASCII decimal digit test: the decimal digits of the claim language and
the digit atoms of the ASCII fragment of the strptime token regexes that
this model covers. -/
def isAsciiDigit (c : Char) : Bool := decide ('0' ≤ c ∧ c ≤ '9')

/-- Python str.isdigit on one character, over the Latin-1 fragment the
development uses: the ASCII decimal digits together with the Latin-1
superscript digits U+00B9, U+00B2 and U+00B3, which CPython classifies as
digits even though they are not decimal digits.  The remaining Unicode
digit characters behave like the superscripts and are not needed here. -/
def pyIsdigitChar (c : Char) : Bool :=
  isAsciiDigit c || decide (c = '¹') || decide (c = '²') || decide (c = '³')

/-- A Python value held in a Field slot: the program stores either a raw
string or a datetime.date there. -/
inductive PyVal where
  | str (s : String)
  | date (d : PyDate)
deriving DecidableEq

/-- str() of a Field value. -/
def pyValStr : PyVal → String
  | PyVal.str s => s
  | PyVal.date d => isoStr d

/-- Field (src lines 57-62): a bare value holder whose initializer assigns
self.value. -/
structure Field where
  value : PyVal
deriving DecidableEq

/-- The Field initializer (src lines 58-59). -/
def fieldInit (v : PyVal) : Field := { value := v }

/-- Phone (src lines 67-81): a field whose private slot holds the value the
setter accepted. -/
structure Phone where
  value : String
deriving DecidableEq

/-- Phone construction, which is nothing but the value setter check of src
lines 76-81: accept when len(value) == 10 and value.isdigit(), raise the
format ValueError otherwise. -/
def phoneInit (s : String) : Except PyErr Phone :=
  if s.length = 10 ∧ s.data.all pyIsdigitChar = true then Except.ok ⟨s⟩
  else Except.error (PyErr.valueError "Некоректний формат номера телефону. Використовуйте 10 цифр без пробілів та інших символів.")

/-- Split a character list at every dot, the literal separators of the
strptime format %d.%m.%Y.  The digit tokens can never contain a dot, so
acceptance of the anchored, fully consuming strptime regex is equivalent to
the dot separated pieces each matching their directive. -/
def splitDots : List Char → List (List Char)
  | [] => [[]]
  | c :: rest =>
    let r := splitDots rest
    if c = '.' then [] :: r
    else
      match r with
      | t :: ts => (c :: t) :: ts
      | [] => [[c]]

/-- Numeric value of an ASCII digit token. -/
def digitsVal (t : List Char) : Nat :=
  t.foldl (fun a c => a * 10 + (c.toNat - 48)) 0

/-- The final alternative of the %d directive regex of CPython,
3[0-1]|[1-2]\d|0[1-9]|[1-9]| [1-9], that is a single space followed by one
nonzero digit: strptime also accepts a space padded single digit day. -/
def spaceDayToken (t : List Char) : Bool :=
  match t with
  | [' ', c] => decide ('1' ≤ c ∧ c ≤ '9')
  | _ => false

/-- The %d strptime directive, the regex alternation
3[0-1]|[1-2]\d|0[1-9]|[1-9]| [1-9]: an ASCII digit token of length one or
two whose value lies in 1..31, or a space followed by a single nonzero
digit (int later strips the space, so the numeric value of the token is
computed the same way). -/
def dayToken (t : List Char) : Bool :=
  (t.all isAsciiDigit &&
   decide (1 ≤ t.length ∧ t.length ≤ 2 ∧ 1 ≤ digitsVal t ∧ digitsVal t ≤ 31)) ||
  spaceDayToken t

/-- The %m strptime directive: one or two ASCII digits with value 1..12. -/
def monthToken (t : List Char) : Bool :=
  t.all isAsciiDigit &&
  decide (1 ≤ t.length ∧ t.length ≤ 2 ∧ 1 ≤ digitsVal t ∧ digitsVal t ≤ 12)

/-- The %Y strptime directive: exactly four ASCII digits. -/
def yearToken (t : List Char) : Bool :=
  t.all isAsciiDigit && decide (t.length = 4)

/-- datetime.strptime(s, the dmY format).date(): the three dot separated
tokens must match their directives and the parsed triple must pass the
datetime constructor check (which also rejects the year 0000). -/
def strptimeDmY (s : String) : Option PyDate :=
  match splitDots s.data with
  | [d, m, y] =>
    if dayToken d && monthToken m && yearToken y then
      let dt : PyDate := ⟨digitsVal y, digitsVal m, digitsVal d⟩
      if validDateB dt then some dt else none
    else none
  | _ => none

set_option linter.unusedVariables false in
/-- Birthday construction (src lines 83-89).  The constructor first assigns
the parsed date to self.value through the plain Field slot and then calls
the base initializer with the ORIGINAL string, which overwrites the slot
again; the final stored value is therefore the raw input string.  A parse
failure raises the format ValueError. -/
def birthdayInit (s : String) : Except PyErr Field :=
  match strptimeDmY s with
  | some d =>
    let self := fieldInit (PyVal.date d)
    let self := fieldInit (PyVal.str s)
    Except.ok self
  | none =>
    Except.error (PyErr.valueError "Неправильний формат дати. Використовуйте ДД.ММ.ГГГГ")

/-- Truth of an Except outcome. -/
def exceptOk {α : Type} : Except PyErr α → Bool
  | Except.ok _ => true
  | Except.error _ => false

/-- The reading of claim C3 of the phone rule: exactly ten characters and
every one of them a decimal digit. -/
def phoneClaimDecimal (s : String) : Bool :=
  decide (s.length = 10) && s.data.all isAsciiDigit

/-- Real calendar date test on a year/month/day triple, as the claim
language uses the phrase. -/
def isRealDate (y m d : Nat) : Bool := validDateB ⟨y, m, d⟩

/-- The reading of claim C4 of the birthday rule: zero padded two digit day
and month, four digit year, denoting a real calendar date. -/
def birthdayClaimPadded (s : String) : Bool :=
  match splitDots s.data with
  | [d, m, y] =>
    d.all isAsciiDigit && m.all isAsciiDigit && y.all isAsciiDigit &&
    decide (d.length = 2 ∧ m.length = 2 ∧ y.length = 4) &&
    isRealDate (digitsVal y) (digitsVal m) (digitsVal d)
  | _ => false

/-- The amended acceptance predicate of claim C4: day.month.year where the
day is a one or two digit number (zero padding optional) or a space
followed by a single nonzero digit, the month is a one or two digit number
(zero padding optional), the year has exactly four digits, and the three
numbers denote a real calendar date. -/
def birthdayAmended (s : String) : Bool :=
  match splitDots s.data with
  | [d, m, y] =>
    ((d.all isAsciiDigit && decide (1 ≤ d.length ∧ d.length ≤ 2)) ||
      spaceDayToken d) &&
    m.all isAsciiDigit && decide (1 ≤ m.length ∧ m.length ≤ 2) &&
    y.all isAsciiDigit && decide (y.length = 4) &&
    isRealDate (digitsVal y) (digitsVal m) (digitsVal d)
  | _ => false

/-- Record (src lines 91-95): a name fixed at construction, an ordered
phone list and an optional birthday field. -/
structure Record where
  name : String
  phones : List Phone
  birthday : Option Field
deriving DecidableEq

/-- AddressBook (src line 124): a UserDict, modelled as its insertion
ordered association list of name/record pairs. -/
structure Book where
  data : List (String × Record)
deriving DecidableEq

/-- dict lookup (self.data.get and self.data[name] on present keys). -/
def dictGet : List (String × Record) → String → Option Record
  | [], _ => none
  | (k, v) :: rest, n => if k = n then some v else dictGet rest n

/-- dict membership (name in self.data). -/
def dictHas (d : List (String × Record)) (n : String) : Bool :=
  (dictGet d n).isSome

/-- Replace the value stored under a present key, keeping its position. -/
def dictReplace : List (String × Record) → String → Record → List (String × Record)
  | [], _, _ => []
  | (k, w) :: rest, n, v => (if k = n then (n, v) else (k, w)) :: dictReplace rest n v

/-- dict item assignment: an existing key keeps its position and gets the
new value, a new key is appended at the end, exactly the dict semantics
add_record (src lines 125-126) relies on. -/
def dictSet (d : List (String × Record)) (n : String) (v : Record) :
    List (String × Record) :=
  if dictHas d n then dictReplace d n v else d ++ [(n, v)]

/-- In place mutation of the record stored under an existing key. -/
def dictUpdate : List (String × Record) → String → (Record → Record) → List (String × Record)
  | [], _, _ => []
  | (k, v) :: rest, n, f =>
    (if k = n then (k, f v) else (k, v)) :: dictUpdate rest n f

/-- Join strings with a separator, as str.join does. -/
def joinWith (sep : String) : List String → String
  | [] => ""
  | [x] => x
  | x :: y :: xs => x ++ sep ++ joinWith sep (y :: xs)

/-- Fragment of the Python repr of a string that KeyError display needs:
CPython surrounds the text with single quotes, switching to double quotes
when the text contains a single quote and no double quote.  The messages of
this program contain no backslashes or control characters, so the quote
choice is the whole story. -/
def pyRepr (s : String) : String :=
  if s.data.contains '\x27' ∧ s.data.contains '\"' = false then
    "\"" ++ s ++ "\""
  else
    "\x27" ++ s ++ "\x27"

/-- str(e) of a caught exception: ValueError and IndexError show their
message, KeyError shows the repr of its argument. -/
def pyErrStr : PyErr → String
  | PyErr.keyError s => pyRepr s
  | PyErr.valueError s => s
  | PyErr.indexError s => s

/-- The input_error decorator (src lines 176-186): an ordinary return value
passes through, a raised KeyError, ValueError or IndexError is caught and
becomes its display string. -/
def inputError : Except PyErr String → String
  | Except.ok m => m
  | Except.error e => pyErrStr e

/-- The phone loop of add_contact (src lines 200-201) together with
Record.add_phone (src lines 97-98): phones are validated and appended one
by one, and a failing phone stops the loop with the phones added so far
kept on the record. -/
def addPhonesLoop (r : Record) : List String → Record × Option PyErr
  | [] => (r, none)
  | p :: rest =>
    match phoneInit p with
    | Except.ok ph => addPhonesLoop { r with phones := r.phones ++ [ph] } rest
    | Except.error e => (r, some e)

/-- add_contact (src lines 188-202).  The handler mutates the record that
is already reachable from the book, so the partially extended record stays
in the book even when a later phone fails. -/
def addContact (args : List String) (book : Book) : Except PyErr String × Book :=
  match args with
  | name :: p :: ps =>
    (match dictGet book.data name with
     | some r =>
       (match (addPhonesLoop r (p :: ps)).2 with
        | some e =>
          (Except.error e, ⟨dictSet book.data name (addPhonesLoop r (p :: ps)).1⟩)
        | none =>
          (Except.ok "Контакт оновлено.", ⟨dictSet book.data name (addPhonesLoop r (p :: ps)).1⟩))
     | none =>
       (match (addPhonesLoop ⟨name, [], none⟩ (p :: ps)).2 with
        | some e =>
          (Except.error e, ⟨dictSet book.data name (addPhonesLoop ⟨name, [], none⟩ (p :: ps)).1⟩)
        | none =>
          (Except.ok "Контакт доданий.", ⟨dictSet book.data name (addPhonesLoop ⟨name, [], none⟩ (p :: ps)).1⟩)))
  | _ =>
    (Except.error (PyErr.valueError "Неправильна кількість аргументів. Використовуйте: add [имя] [телефон]"), book)

/-- change_contact (src lines 204-212): wrong argument count raises a
ValueError, an unknown name raises a KeyError before any mutation, and on
success the whole phone list is replaced by the single new phone (the
phone is validated before the assignment happens). -/
def changeContact (args : List String) (book : Book) : Except PyErr String × Book :=
  match args with
  | [name, phone] =>
    if dictHas book.data name = false then
      (Except.error (PyErr.keyError ("Контакт \x27" ++ name ++ "\x27 не знайдено.")), book)
    else
      (match phoneInit phone with
       | Except.ok ph =>
         (Except.ok "Контакт успішно оновлено.",
          ⟨dictUpdate book.data name (fun r => { r with phones := [ph] })⟩)
       | Except.error e => (Except.error e, book))
  | _ =>
    (Except.error (PyErr.valueError "Неправильна кількість аргументів. Використовуйте: change [ім\x27я] [новий_телефон]"), book)

/-- Rendering of a record (src lines 121-122). -/
def recordStr (r : Record) : String :=
  "Ім\x27я контакту: " ++ r.name ++ ", телефон: " ++
    joinWith "; " (r.phones.map Phone.value)

/-- show_contacts (src lines 214-221). -/
def showContacts (args : List String) (book : Book) : Except PyErr String :=
  match args with
  | [name] =>
    (match dictGet book.data name with
     | none => Except.error (PyErr.keyError ("Контакт \x27" ++ name ++ "\x27 не знайдено."))
     | some r => Except.ok (recordStr r))
  | _ =>
    Except.error (PyErr.valueError "Неправильна кількість аргументів. Використовуйте: show [ім\x27я]")

/-- add_birthday (src lines 230-238): wrong argument count raises a
ValueError, an unknown name raises a KeyError, and Record.add_birthday
(src lines 118-119) replaces any existing birthday unconditionally once the
Birthday constructor succeeds. -/
def addBirthdayH (args : List String) (book : Book) : Except PyErr String × Book :=
  match args with
  | [name, bday] =>
    if dictHas book.data name = false then
      (Except.error (PyErr.keyError ("Контакт \x27" ++ name ++ "\x27 не знайдено.")), book)
    else
      (match birthdayInit bday with
       | Except.ok bf =>
         (Except.ok ("Дату народження успішно додано для контакту \x27" ++ name ++ "\x27."),
          ⟨dictUpdate book.data name (fun r => { r with birthday := some bf })⟩)
       | Except.error e => (Except.error e, book))
  | _ =>
    (Except.error (PyErr.valueError "Неправильна кількість аргументів. Використовуйте: add-birthday [ім\x27я] [дата]"), book)

/-- show_birthday (src lines 240-251). -/
def showBirthdayH (args : List String) (book : Book) : Except PyErr String :=
  match args with
  | [name] =>
    (match dictGet book.data name with
     | none => Except.error (PyErr.keyError ("Контакт \x27" ++ name ++ "\x27 не знайдено."))
     | some r =>
       match r.birthday with
       | none => Except.ok ("Для контакту \x27" ++ name ++ "\x27 не вказано дату народження.")
       | some bf => Except.ok ("Дата народження контакту \x27" ++ name ++ "\x27: " ++ pyValStr bf.value))
  | _ =>
    Except.error (PyErr.valueError "Неправильна кількість аргументів. Використовуйте: show-birthday [ім\x27я]")

/-- all_birthdays (src lines 253-262). -/
def allBirthdaysH (book : Book) : Except PyErr String :=
  let pairs := book.data.filterMap (fun p =>
    match p.2.birthday with
    | some bf => some (p.1, bf.value)
    | none => none)
  if pairs.isEmpty then
    Except.ok "В адресній книзі немає контактів із днями народження."
  else
    Except.ok (joinWith "\n" (pairs.map (fun q => q.1 ++ ": " ++ pyValStr q.2)))

/-- The all branch of main (src lines 290-292) rendered through
ConsoleView.display_contacts (src lines 38-43). -/
def displayContacts (book : Book) : List String :=
  if book.data.isEmpty then ["Список контактів порожній."]
  else book.data.map (fun p => p.1 ++ ": " ++ joinWith ", " (p.2.phones.map Phone.value))

/-- The static help text (src lines 45-54). -/
def helpLines : List String :=
  ["Available commands:",
   "1. add [name] [phone] - Add a new contact",
   "2. change [name] [new_phone] - Change the contact\x27s phone",
   "3. show [name] - Show contact details",
   "4. all - Show all contacts",
   "5. add-birthday [name] [birthday] - Add a birthday to the contact",
   "6. show-birthday [name] - Show the contact\x27s birthday",
   "7. all-birthdays - Show all birthdays",
   "8. close/exit - Exit the application"]

/-- Lower case an ASCII letter, the fragment of str.lower that can affect
which dispatch branch an input line takes. -/
def pyLowerChar (c : Char) : Char :=
  if 'A' ≤ c ∧ c ≤ 'Z' then Char.ofNat (c.toNat + 32) else c

/-- str.lower over the model alphabet. -/
def pyLower (s : String) : String := ⟨s.data.map pyLowerChar⟩

/-- Whitespace characters str.split separates on (model alphabet). -/
def wsChar (c : Char) : Bool :=
  decide (c = ' ' ∨ c = '\t' ∨ c = '\n' ∨ c = '\r')

/-- Worker for str.split() with no separator: whitespace runs are
separators and empty pieces are dropped. -/
def pyTokensGo : List Char → List Char → List String
  | cur, [] => if cur.isEmpty then [] else [String.mk cur.reverse]
  | cur, c :: rest =>
    if wsChar c then
      if cur.isEmpty then pyTokensGo [] rest
      else String.mk cur.reverse :: pyTokensGo [] rest
    else pyTokensGo (c :: cur) rest

/-- user_input.split() (src line 265). -/
def pySplitWs (s : String) : List String := pyTokensGo [] s.data

/-- parse_input (src lines 264-267): the unpacking cmd, *args raises an
uncaught ValueError when the line has no tokens; otherwise the first token
is lower cased (it already carries no whitespace, so strip is a no-op) and
the rest are the arguments. -/
def parseInput (s : String) : Except PyErr (String × List String) :=
  match pySplitWs s with
  | [] => Except.error (PyErr.valueError "not enough values to unpack (expected at least 1, got 0)")
  | c :: args => Except.ok (pyLower c, args)

/-- Outcome of processing one input line of the session loop: continue with
printed output, leave the loop (the close/exit branch), or die on an
exception nothing catches. -/
inductive StepOut where
  | cont (out : List String) (book : Book)
  | exit (out : List String) (book : Book)
  | crash (e : PyErr)
deriving DecidableEq

/-- The command dispatch of main (src lines 278-301). -/
def dispatch (cmd : String) (args : List String) (book : Book) : StepOut :=
  if cmd = "close" ∨ cmd = "exit" then StepOut.exit ["Goodbye!"] book
  else if cmd = "hello" then StepOut.cont ["How can I help you?"] book
  else if cmd = "add" then
    StepOut.cont [inputError (addContact args book).1] (addContact args book).2
  else if cmd = "change" then
    StepOut.cont [inputError (changeContact args book).1] (changeContact args book).2
  else if cmd = "show" then StepOut.cont [inputError (showContacts args book)] book
  else if cmd = "all" then StepOut.cont (displayContacts book) book
  else if cmd = "add-birthday" then
    StepOut.cont [inputError (addBirthdayH args book).1] (addBirthdayH args book).2
  else if cmd = "show-birthday" then StepOut.cont [inputError (showBirthdayH args book)] book
  else if cmd = "all-birthdays" then StepOut.cont [inputError (allBirthdaysH book)] book
  else StepOut.cont ("Недійсна команда." :: helpLines) book

/-- Processing of one line of the session loop of main (src lines 274-301):
parse_input runs outside every try block, so its ValueError on a token free
line crashes the process. -/
def mainStep (line : String) (book : Book) : StepOut :=
  match parseInput line with
  | Except.error e => StepOut.crash e
  | Except.ok (cmd, args) => dispatch cmd args book

/-- The unwrapped result of the handler a wrapped command dispatches to,
used to state claim C7 about the error adapter. -/
def rawHandlerResult (cmd : String) (args : List String) (book : Book) :
    Except PyErr String :=
  if cmd = "add" then (addContact args book).1
  else if cmd = "change" then (changeContact args book).1
  else if cmd = "show" then showContacts args book
  else if cmd = "add-birthday" then (addBirthdayH args book).1
  else if cmd = "show-birthday" then showBirthdayH args book
  else if cmd = "all-birthdays" then allBirthdaysH book
  else Except.ok ""

set_option linter.unusedVariables false in
/-- Modelled from the spec: save_data (src lines 6-8) delegates to
pickle.dump, stdlib code that is not under src.  pickle serializes the
whole object graph of these plain classes exactly, so the single file
store is modelled as holding the book value itself, overwritten wholesale. -/
def saveData (book : Book) (store : Option Book) : Option Book := some book

/-- Modelled from the spec: load_data (src lines 10-15); a missing file
yields a fresh empty AddressBook, otherwise pickle.load reconstructs the
stored book exactly. -/
def loadData : Option Book → Book
  | some b => b
  | none => ⟨[]⟩

/-- get_upcoming_birthday (src lines 154-173), embedded directly over the
items of the book dict, with today passed explicitly for
datetime.today().date().  The method reads record.birthday.value, which
the Birthday constructor always leaves holding the RAW STRING (see
birthdayInit): on a string value the very first step,
value.replace(year=today.year), calls str.replace with a keyword argument
and raises the TypeError below, which nothing catches.  On a date value
(unreachable in the program, but kept so the embedding covers the whole
method body) the steps are the literal ones of the source: replace the
year with the current one, roll to the next year when the result lies
before today, keep the record when the day distance to today is between 0
and days, move a kept weekend date forward by 7 minus its weekday, and
render the kept date with strftime %Y.%m.%d. -/
def getUpcomingBirthday (today : PyDate) (days : Nat) :
    List (String × Record) → Except PyFatal (List (String × String))
  | [] => Except.ok []
  | (name, r) :: rest =>
    match r.birthday with
    | none => getUpcomingBirthday today days rest
    | some bf =>
      match bf.value with
      | PyVal.str _ =>
        Except.error (PyFatal.typeError "str.replace() takes no keyword arguments")
      | PyVal.date b => do
        let b1 ← replaceYear b today.year
        let b2 ← if dateLt b1 today then replaceYear b1 (today.year + 1) else pure b1
        let tail ← getUpcomingBirthday today days rest
        if 0 ≤ dateSub b2 today ∧ dateSub b2 today ≤ (days : Int) then
          let b3 := if 5 ≤ weekday b2 then addDays b2 (7 - weekday b2) else b2
          pure ((name, strftimeYmd b3) :: tail)
        else
          pure tail

/-- Body of the while loop of find_next_birthday (src lines 146-147), with
explicit fuel; for a weekday argument in 0..6 seven units of fuel provably
reach the fixed point and further fuel changes nothing, so the unbounded
source loop agrees with the fuelled function (the last conjunct of the
claim C10 theorem). -/
def advanceLoop : Nat → Nat → PyDate → PyDate
  | 0, _, d => d
  | fuel + 1, w, d => if weekday d = w then d else advanceLoop fuel w (succDate d)

/-- The while loop of find_next_birthday run with sufficient fuel. -/
def whileWeekday (w : Nat) (d : PyDate) : PyDate := advanceLoop 7 w d

/-- Loop of find_next_birthday (src lines 135-152) over the book items;
the accumulator is the running next_birthday.  As in getUpcomingBirthday
the birthday value is read dynamically: on the raw string the program
stores there, the argument expression record.birthday.value.month of the
datetime constructor raises the AttributeError below, which nothing
catches; the date arm (unreachable in the program) follows the source line
by line. -/
def findNextGo (today : PyDate) (w : Nat) :
    Option PyDate → List (String × Record) → Except PyFatal (Option PyDate)
  | acc, [] => Except.ok acc
  | acc, (_, r) :: rest =>
    match r.birthday with
    | none => findNextGo today w acc rest
    | some bf =>
      match bf.value with
      | PyVal.str _ =>
        Except.error (PyFatal.attributeError "\x27str\x27 object has no attribute \x27month\x27")
      | PyVal.date b => do
        let b1 ← mkDate today.year b.month b.day
        let b2 ← if dateLt b1 today then mkDate (today.year + 1) b.month b.day else pure b1
        let b3 := whileWeekday w b2
        let acc2 :=
          match acc with
          | none => some b3
          | some nb => if dateSub b3 today < dateSub nb today then some b3 else some nb
        findNextGo today w acc2 rest

/-- find_next_birthday (src lines 135-152). -/
def findNextBirthday (today : PyDate) (w : Nat)
    (book : List (String × Record)) : Except PyFatal (Option PyDate) :=
  findNextGo today w none book

/-- One book entry has its birthday slot either empty or holding a raw
string.  The Birthday constructor stores nothing but strings (claim C1),
so every reachable book satisfies this for every entry. -/
def birthdayIsRawString (p : String × Record) : Bool :=
  match p.2.birthday with
  | none => true
  | some bf =>
    match bf.value with
    | PyVal.str _ => true
    | PyVal.date _ => false

/-- The truthiness test if record.birthday of the two query methods. -/
def hasBirthday (p : String × Record) : Bool :=
  p.2.birthday.isSome

/-! ### Calendar arithmetic lemmas -/

theorem daysInMonth_pos (y m : Nat) : 1 ≤ daysInMonth y m := by
  unfold daysInMonth; split_ifs <;> omega

theorem daysInMonth_le_31 (y m : Nat) : daysInMonth y m ≤ 31 := by
  unfold daysInMonth; split_ifs <;> omega

theorem daysBeforeMonth_add (y m : Nat) (h1 : 1 ≤ m) (h2 : m ≤ 11) :
    daysBeforeMonth y (m + 1) = daysBeforeMonth y m + daysInMonth y m := by
  interval_cases m <;>
    cases hL : isLeap y <;>
      simp [daysBeforeMonth, daysBeforeMonthBase, daysInMonth, hL]

set_option maxHeartbeats 1000000 in
theorem daysBeforeYear_succ (y : Nat) (hy : 1 ≤ y) :
    daysBeforeYear (y + 1) = daysBeforeYear y + (if isLeap y then 366 else 365) := by
  by_cases hL : (y % 4 = 0 ∧ y % 100 ≠ 0) ∨ y % 400 = 0
  · have hb : isLeap y = true := decide_eq_true hL
    rw [hb]
    simp only [if_true]
    unfold daysBeforeYear
    simp only [Nat.add_sub_cancel]
    omega
  · have hb : isLeap y = false := by
      unfold isLeap
      simpa using hL
    rw [hb]
    simp only [Bool.false_eq_true, if_false]
    unfold daysBeforeYear
    simp only [Nat.add_sub_cancel]
    omega

theorem toordinal_succDate (d : PyDate) (h : validDateB d = true) :
    toordinal (succDate d) = toordinal d + 1 := by
  obtain ⟨y, m, dd⟩ := d
  simp only [validDateB, decide_eq_true_eq] at h
  obtain ⟨hy, hm1, hm2, hd1, hd2⟩ := h
  unfold succDate
  dsimp only
  split_ifs with h1 h2
  · simp only [toordinal]
    omega
  · have hstep := daysBeforeMonth_add y m hm1 (by omega)
    have hdd : dd = daysInMonth y m := by omega
    simp only [toordinal]
    omega
  · have hm : m = 12 := by omega
    subst hm
    have hdim : daysInMonth y 12 = 31 := by simp [daysInMonth]
    have hdd : dd = 31 := by omega
    subst hdd
    have hY := daysBeforeYear_succ y hy
    simp only [toordinal, daysBeforeMonth, daysBeforeMonthBase]
    dsimp only
    cases hL : isLeap y <;> simp [hL] at hY ⊢ <;> omega

theorem validDateB_succDate (d : PyDate) (h : validDateB d = true) :
    validDateB (succDate d) = true := by
  obtain ⟨y, m, dd⟩ := d
  simp only [validDateB, decide_eq_true_eq] at h
  unfold succDate
  dsimp only
  split_ifs with h1 h2 <;> simp only [validDateB, decide_eq_true_eq]
  · omega
  · have := daysInMonth_pos y (m + 1)
    omega
  · have := daysInMonth_pos (y + 1) 1
    omega

theorem validDateB_addDays (d : PyDate) (h : validDateB d = true) (n : Nat) :
    validDateB (addDays d n) = true := by
  induction n with
  | zero => exact h
  | succ k ih => simpa [addDays] using validDateB_succDate _ ih

theorem toordinal_addDays (d : PyDate) (h : validDateB d = true) (n : Nat) :
    toordinal (addDays d n) = toordinal d + n := by
  induction n with
  | zero => rfl
  | succ k ih =>
    have hv := validDateB_addDays d h k
    simp only [addDays, toordinal_succDate _ hv, ih]
    omega

theorem weekday_addDays (d : PyDate) (h : validDateB d = true) (n : Nat) :
    weekday (addDays d n) = (weekday d + n) % 7 := by
  unfold weekday
  rw [toordinal_addDays d h n]
  omega

theorem weekday_lt_7 (d : PyDate) : weekday d < 7 := by
  unfold weekday; omega

theorem addDays_shift (d : PyDate) (n : Nat) :
    addDays (succDate d) n = addDays d (n + 1) := by
  induction n with
  | zero => rfl
  | succ k ih => simp only [addDays, ih]

theorem advanceLoop_correct (w : Nat) (hw : w ≤ 6) :
    ∀ fuel d, validDateB d = true → (w + 7 - weekday d) % 7 < fuel →
      advanceLoop fuel w d = addDays d ((w + 7 - weekday d) % 7) := by
  intro fuel
  induction fuel with
  | zero => intro d _ hf; omega
  | succ f ih =>
    intro d hd hf
    unfold advanceLoop
    by_cases he : weekday d = w
    · have h0 : (w + 7 - weekday d) % 7 = 0 := by rw [he]; omega
      simp [he, h0, addDays]
    · have hwd := weekday_lt_7 d
      have hk : (w + 7 - weekday d) % 7 ≠ 0 := by omega
      have hsw : weekday (succDate d) = (weekday d + 1) % 7 := by
        unfold weekday
        rw [toordinal_succDate d hd]
        omega
      have hk2 : (w + 7 - weekday (succDate d)) % 7 = (w + 7 - weekday d) % 7 - 1 := by
        rw [hsw]; omega
      rw [if_neg he, ih (succDate d) (validDateB_succDate d hd) (by omega),
          addDays_shift, hk2]
      congr 1
      omega

theorem advanceLoop_stable (w : Nat) (hw : w ≤ 6) (d : PyDate)
    (hd : validDateB d = true) (j : Nat) :
    advanceLoop (7 + j) w d = advanceLoop 7 w d := by
  have hb : (w + 7 - weekday d) % 7 < 7 := by omega
  rw [advanceLoop_correct w hw 7 d hd hb,
      advanceLoop_correct w hw (7 + j) d hd (by omega)]

/-! ### Dictionary and phone helper lemmas -/

theorem dictGet_dictUpdate_self (d : List (String × Record)) (n : String)
    (f : Record → Record) :
    dictGet (dictUpdate d n f) n = (dictGet d n).map f := by
  induction d with
  | nil => rfl
  | cons p rest ih =>
    obtain ⟨k, v⟩ := p
    simp only [dictUpdate]
    by_cases hk : k = n
    · subst hk
      rw [if_pos rfl]
      simp [dictGet]
    · rw [if_neg hk]
      simp [dictGet, hk, ih]

theorem dictGet_dictReplace (d : List (String × Record)) (n : String) (v : Record)
    (h : dictHas d n = true) :
    dictGet (dictReplace d n v) n = some v := by
  induction d with
  | nil => simp [dictHas, dictGet] at h
  | cons p rest ih =>
    obtain ⟨k, w⟩ := p
    simp only [dictReplace]
    by_cases hk : k = n
    · subst hk
      rw [if_pos rfl]
      simp [dictGet]
    · rw [if_neg hk]
      have h2 : dictHas rest n = true := by
        simp only [dictHas, dictGet, if_neg hk] at h
        exact h
      simp [dictGet, hk]
      exact ih h2

theorem dictGet_append_new (d : List (String × Record)) (n : String) (v : Record)
    (h : dictHas d n = false) :
    dictGet (d ++ [(n, v)]) n = some v := by
  induction d with
  | nil => simp [dictGet]
  | cons p rest ih =>
    obtain ⟨k, w⟩ := p
    by_cases hk : k = n
    · subst hk
      simp [dictHas, dictGet] at h
    · have h2 : dictHas rest n = false := by
        simp only [dictHas, dictGet, if_neg hk] at h
        exact h
      simp only [List.cons_append]
      simp [dictGet, hk]
      exact ih h2

theorem dictGet_dictSet_self (d : List (String × Record)) (n : String) (v : Record) :
    dictGet (dictSet d n v) n = some v := by
  unfold dictSet
  by_cases h : dictHas d n
  · rw [if_pos h]
    exact dictGet_dictReplace d n v h
  · rw [if_neg h]
    exact dictGet_append_new d n v (Bool.eq_false_iff.mpr h)

theorem phoneInit_ok_of (q : String) (h : exceptOk (phoneInit q) = true) :
    phoneInit q = Except.ok ⟨q⟩ := by
  unfold phoneInit at h ⊢
  split_ifs at h ⊢ with hc
  · rfl
  · simp [exceptOk] at h

theorem phone_value_of_ok (s : String) (p : Phone) (h : phoneInit s = Except.ok p) :
    p.value = s := by
  unfold phoneInit at h
  split_ifs at h with hc
  cases h
  rfl

theorem map_value_mk (l : List String) : List.map (Phone.value ∘ Phone.mk) l = l := by
  induction l with
  | nil => rfl
  | cons a t ih =>
    simp only [List.map_cons, ih]
    rfl

theorem addPhonesLoop_ok (ps : List String) :
    ∀ r : Record, (∀ q ∈ ps, exceptOk (phoneInit q) = true) →
      addPhonesLoop r ps = ({ r with phones := r.phones ++ ps.map Phone.mk }, none) := by
  induction ps with
  | nil =>
    intro r _
    simp [addPhonesLoop]
  | cons q rest ih =>
    intro r hall
    have hq := phoneInit_ok_of q (hall q (by simp))
    have step : addPhonesLoop r (q :: rest) =
        addPhonesLoop { r with phones := r.phones ++ [⟨q⟩] } rest := by
      conv_lhs => rw [addPhonesLoop]
      rw [hq]
    rw [step, ih _ (fun x hx => hall x (by simp [hx]))]
    simp

/-! ### Claim theorems: field validation -/

/-- Claim C1 (code bug): on the accepted input 01.01.2000 the Birthday
constructor parses the date 2000-01-01, yet the value it finally stores is
the raw input STRING, because the trailing super().__init__(value) call of
src lines 86-87 overwrites the parsed date with the original string; every
other consumer of the field (str rendering aside) needs a date there. -/
theorem birthday_stores_raw_string :
    strptimeDmY "01.01.2000" = some ⟨2000, 1, 1⟩ ∧
    birthdayInit "01.01.2000" = Except.ok { value := PyVal.str "01.01.2000" } := by
  exact ⟨rfl, rfl⟩

/-- Claim C3 counterexample: the string of ten SUPERSCRIPT TWO characters
passes the len == 10 and isdigit() check of the Phone setter, so Phone
construction succeeds even though not every character is a decimal digit. -/
theorem phone_not_decimal_cex :
    exceptOk (phoneInit "²²²²²²²²²²") = true ∧
    phoneClaimDecimal "²²²²²²²²²²" = false := by
  exact ⟨by decide, by decide⟩

/-- Claim C3 (amended): Phone construction succeeds exactly when the input
has length ten and every character passes the str.isdigit classification
(all decimal digits qualify, but so do other Unicode digit characters such
as the superscripts), it fails with the format ValueError otherwise, and
every accepted Phone renders back as the identical input string. -/
theorem phone_validation_spec (s : String) :
    (exceptOk (phoneInit s) = true ↔
      (s.length = 10 ∧ s.data.all pyIsdigitChar = true)) ∧
    (∀ p, phoneInit s = Except.ok p → p.value = s) ∧
    (¬ (s.length = 10 ∧ s.data.all pyIsdigitChar = true) →
      phoneInit s = Except.error (PyErr.valueError "Некоректний формат номера телефону. Використовуйте 10 цифр без пробілів та інших символів.")) := by
  refine ⟨?_, fun p hp => phone_value_of_ok s p hp, ?_⟩
  · unfold phoneInit
    split_ifs with h
    · exact iff_of_true (by simp [exceptOk]) h
    · exact iff_of_false (by simp [exceptOk]) h
  · intro h
    unfold phoneInit
    rw [if_neg h]

/-- Witness for the amended claim C3 at a concrete accepted phone. -/
theorem phone_validation_spec_witness :
    exceptOk (phoneInit "0123456789") = true ∧
    (∀ p, phoneInit "0123456789" = Except.ok p → p.value = "0123456789") := by
  exact ⟨(phone_validation_spec "0123456789").1.mpr (by decide),
         (phone_validation_spec "0123456789").2.1⟩

/-- Strptime acceptance agrees with the amended claim C4 predicate. -/
theorem strptime_isSome_iff (s : String) :
    (strptimeDmY s).isSome = birthdayAmended s := by
  unfold strptimeDmY birthdayAmended
  cases hsp : splitDots s.data with
  | nil => rfl
  | cons a l1 =>
    cases l1 with
    | nil => rfl
    | cons b l2 =>
      cases l2 with
      | nil => rfl
      | cons c l3 =>
        cases l3 with
        | cons e l4 => rfl
        | nil =>
          show (if (dayToken a && monthToken b && yearToken c) = true then
              (if validDateB ⟨digitsVal c, digitsVal b, digitsVal a⟩ = true
               then some (PyDate.mk (digitsVal c) (digitsVal b) (digitsVal a)) else none)
            else none).isSome =
            (((a.all isAsciiDigit && decide (1 ≤ a.length ∧ a.length ≤ 2)) ||
                spaceDayToken a) &&
              b.all isAsciiDigit && decide (1 ≤ b.length ∧ b.length ≤ 2) &&
              c.all isAsciiDigit && decide (c.length = 4) &&
              isRealDate (digitsVal c) (digitsVal b) (digitsVal a))
          by_cases hv : validDateB ⟨digitsVal c, digitsVal b, digitsVal a⟩ = true
          · rw [Bool.eq_iff_iff]
            have hvp := hv
            simp only [validDateB, decide_eq_true_eq] at hvp
            have h31 := daysInMonth_le_31 (digitsVal c) (digitsVal b)
            constructor
            · intro ht
              split_ifs at ht with htok
              · simp only [dayToken, monthToken, yearToken, Bool.and_eq_true,
                  Bool.or_eq_true, decide_eq_true_eq] at htok
                obtain ⟨⟨hD, hba, hb1, hb2, hb3, hb4⟩, hca, hc1⟩ := htok
                simp only [Bool.and_eq_true, Bool.or_eq_true, decide_eq_true_eq]
                refine ⟨⟨⟨⟨⟨?_, hba⟩, hb1, hb2⟩, hca⟩, hc1⟩, hv⟩
                exact hD.imp (fun h => ⟨h.1, h.2.1, h.2.2.1⟩) (fun h => h)
              · simp [Option.isSome] at ht
            · intro ht
              simp only [Bool.and_eq_true, Bool.or_eq_true, decide_eq_true_eq,
                isRealDate] at ht
              obtain ⟨⟨⟨⟨⟨hX, hba⟩, hb1, hb2⟩, hca⟩, hc1⟩, _⟩ := ht
              have htok : (dayToken a && monthToken b && yearToken c) = true := by
                simp only [dayToken, monthToken, yearToken, Bool.and_eq_true,
                  Bool.or_eq_true, decide_eq_true_eq]
                refine ⟨⟨?_, hba, hb1, hb2, ?_, ?_⟩, hca, hc1⟩
                · rcases hX with ⟨ha, h1, h2⟩ | hsp
                  · exact Or.inl ⟨ha, h1, h2, by omega, by omega⟩
                  · exact Or.inr hsp
                · omega
                · omega
              rw [if_pos htok, if_pos hv]
              rfl
          · have hv2 : validDateB ⟨digitsVal c, digitsVal b, digitsVal a⟩ = false := by
              simpa using hv
            have hrhs : isRealDate (digitsVal c) (digitsVal b) (digitsVal a) = false := hv2
            rw [hrhs]
            simp only [Bool.and_false]
            split_ifs with htok <;> rfl

/-- Claim C4 counterexample: the unpadded string 1.1.2000 is accepted by
the Birthday constructor, because the %d and %m strptime directives also
match single digit numbers, while the zero padded two digit reading of the
claim rejects the string. -/
theorem birthday_padding_cex :
    exceptOk (birthdayInit "1.1.2000") = true ∧
    birthdayClaimPadded "1.1.2000" = false := by
  exact ⟨rfl, rfl⟩

/-- Claim C4 (amended): Birthday construction succeeds exactly on strings
of the shape day.month.year in which the day is a one or two digit number
(zero padding optional) or a space followed by a single nonzero digit (the
space padded alternative of the %d directive), the month is a one or two
digit number (zero padding optional), the year has exactly four digits,
and the three numbers denote a real calendar date; every other string
fails with the format ValueError. -/
theorem birthday_format_spec (s : String) :
    (exceptOk (birthdayInit s) = true ↔ birthdayAmended s = true) ∧
    (birthdayAmended s = false →
      birthdayInit s = Except.error (PyErr.valueError "Неправильний формат дати. Використовуйте ДД.ММ.ГГГГ")) := by
  have hiff := strptime_isSome_iff s
  constructor
  · cases hs : strptimeDmY s with
    | some d =>
      rw [hs] at hiff
      simp only [Option.isSome_some] at hiff
      have ha : birthdayAmended s = true := hiff.symm
      simp [birthdayInit, hs, exceptOk, ha]
    | none =>
      rw [hs] at hiff
      simp only [Option.isSome_none] at hiff
      have ha : birthdayAmended s = false := hiff.symm
      simp [birthdayInit, hs, exceptOk, ha]
  · intro hfalse
    cases hs : strptimeDmY s with
    | some d =>
      rw [hs] at hiff
      rw [hfalse] at hiff
      simp at hiff
    | none =>
      simp [birthdayInit, hs]

/-- Witness for the amended claim C4: a leap day string parses, a space
padded single digit day parses, and an April 31 string is rejected with
the format error. -/
theorem birthday_format_spec_witness :
    exceptOk (birthdayInit "29.02.2000") = true ∧
    exceptOk (birthdayInit " 1.1.2000") = true ∧
    birthdayInit "31.04.2020" = Except.error (PyErr.valueError "Неправильний формат дати. Використовуйте ДД.ММ.ГГГГ") := by
  exact ⟨(birthday_format_spec "29.02.2000").1.mpr (by decide),
         (birthday_format_spec " 1.1.2000").1.mpr (by decide),
         (birthday_format_spec "31.04.2020").2 (by decide)⟩

/-! ### Claim theorems: the add and change commands -/

/-- Claim C5: with every phone argument valid, add on a brand new name
creates a record holding exactly the given phones in the given order, and
add on an existing name reuses that record and appends the new phones
behind the existing ones, replacing nothing. -/
theorem add_contact_spec (name p : String) (ps : List String) (book : Book)
    (hall : ∀ q ∈ p :: ps, exceptOk (phoneInit q) = true) :
    (dictGet book.data name = none →
      (addContact (name :: p :: ps) book).1 = Except.ok "Контакт доданий." ∧
      ∃ r, dictGet (addContact (name :: p :: ps) book).2.data name = some r ∧
        r.name = name ∧ r.phones.map Phone.value = p :: ps ∧ r.birthday = none) ∧
    (∀ r0, dictGet book.data name = some r0 →
      (addContact (name :: p :: ps) book).1 = Except.ok "Контакт оновлено." ∧
      ∃ r, dictGet (addContact (name :: p :: ps) book).2.data name = some r ∧
        r.name = r0.name ∧
        r.phones.map Phone.value = r0.phones.map Phone.value ++ p :: ps ∧
        r.birthday = r0.birthday) := by
  constructor
  · intro hnone
    have hl := addPhonesLoop_ok (p :: ps) ⟨name, [], none⟩ hall
    have h1 : addContact (name :: p :: ps) book =
        (Except.ok "Контакт доданий.",
         ⟨dictSet book.data name ⟨name, [] ++ (p :: ps).map Phone.mk, none⟩⟩) := by
      simp only [addContact, hnone, hl]
    rw [h1]
    refine ⟨rfl, _, dictGet_dictSet_self _ _ _, rfl, ?_, rfl⟩
    simp only [List.nil_append, List.map_map]
    exact map_value_mk (p :: ps)
  · intro r0 hsome
    have hl := addPhonesLoop_ok (p :: ps) r0 hall
    have h1 : addContact (name :: p :: ps) book =
        (Except.ok "Контакт оновлено.",
         ⟨dictSet book.data name ⟨r0.name, r0.phones ++ (p :: ps).map Phone.mk, r0.birthday⟩⟩) := by
      simp only [addContact, hsome, hl]
    rw [h1]
    refine ⟨rfl, _, dictGet_dictSet_self _ _ _, rfl, ?_, rfl⟩
    simp only [List.map_append, List.map_map]
    rw [map_value_mk (p :: ps)]

/-- Witness for claim C5: adding two phones under a fresh name in an empty
book leaves a record with exactly those phones in order. -/
theorem add_contact_spec_witness :
    ∃ r, dictGet (addContact ["Bob", "0123456789", "1112223334"] ⟨[]⟩).2.data "Bob" = some r ∧
      r.phones.map Phone.value = ["0123456789", "1112223334"] := by
  obtain ⟨hmsg, r, hr, hname, hph, hb⟩ :=
    (add_contact_spec "Bob" "0123456789" ["1112223334"] ⟨[]⟩ (by decide)).1 rfl
  exact ⟨r, hr, hph⟩

/-- Claim C6: change on a present name with a valid phone leaves that
record with exactly one phone equal to the given value, whatever it held
before; change on an absent name fails with the KeyError and leaves the
book untouched. -/
theorem change_contact_spec (name phone : String) (book : Book) :
    (∀ ph r0, phoneInit phone = Except.ok ph → dictGet book.data name = some r0 →
      (changeContact [name, phone] book).1 = Except.ok "Контакт успішно оновлено." ∧
      dictGet (changeContact [name, phone] book).2.data name =
        some { r0 with phones := [ph] } ∧
      ph.value = phone) ∧
    (dictGet book.data name = none →
      changeContact [name, phone] book =
        (Except.error (PyErr.keyError ("Контакт \x27" ++ name ++ "\x27 не знайдено.")), book)) := by
  constructor
  · intro ph r0 hph hr0
    have hhas : dictHas book.data name = true := by simp [dictHas, hr0]
    simp only [changeContact, hhas, hph]
    refine ⟨by simp, ?_, phone_value_of_ok phone ph hph⟩
    simp only [Bool.true_eq_false, if_false]
    rw [dictGet_dictUpdate_self, hr0]
    rfl
  · intro hnone
    have hhas : dictHas book.data name = false := by simp [dictHas, hnone]
    simp [changeContact, hhas]

/-- Witness for claim C6: changing a two phone record to a fresh number
leaves exactly that number; changing in an empty book fails with the
KeyError and the empty book survives unchanged. -/
theorem change_contact_spec_witness :
    dictGet (changeContact ["Bob", "0123456789"]
        ⟨[("Bob", ⟨"Bob", [⟨"1112223334"⟩, ⟨"2223334445"⟩], none⟩)]⟩).2.data "Bob" =
      some ⟨"Bob", [⟨"0123456789"⟩], none⟩ ∧
    changeContact ["Bob", "0123456789"] ⟨[]⟩ =
      (Except.error (PyErr.keyError "Контакт \x27Bob\x27 не знайдено."), ⟨[]⟩) := by
  refine ⟨?_, ?_⟩
  · exact ((change_contact_spec "Bob" "0123456789"
      ⟨[("Bob", ⟨"Bob", [⟨"1112223334"⟩, ⟨"2223334445"⟩], none⟩)]⟩).1
      ⟨"0123456789"⟩ ⟨"Bob", [⟨"1112223334"⟩, ⟨"2223334445"⟩], none⟩ rfl rfl).2.1
  · exact (change_contact_spec "Bob" "0123456789" ⟨[]⟩).2 rfl

/-! ### Claim theorems: error adapter, session loop, persistence -/

theorem dispatch_cont (cmd : String) (args : List String) (book : Book)
    (h : ¬(cmd = "close" ∨ cmd = "exit")) :
    ∃ out b2, dispatch cmd args book = StepOut.cont out b2 := by
  unfold dispatch
  rw [if_neg h]
  split_ifs <;> exact ⟨_, _, rfl⟩

/-- Claim C7: every KeyError (a NotFoundError in the spec taxonomy) and
every ValueError (FormatError on a malformed phone or birthday string,
ArgumentCountError on a wrong token count) raised inside a wrapped command
handler is caught at the dispatch boundary and converted into its plain
display string, and the step is a cont: none of these error kinds ends the
session. -/
theorem handler_errors_displayed (cmd : String) (args : List String) (book : Book)
    (e : PyErr)
    (hcmd : cmd ∈ ["add", "change", "show", "add-birthday", "show-birthday", "all-birthdays"])
    (herr : rawHandlerResult cmd args book = Except.error e) :
    ∃ b2, dispatch cmd args book = StepOut.cont [pyErrStr e] b2 := by
  simp only [List.mem_cons, List.not_mem_nil, or_false] at hcmd
  rcases hcmd with h | h | h | h | h | h <;> subst h
  · unfold rawHandlerResult at herr
    rw [if_pos rfl] at herr
    unfold dispatch
    rw [if_neg (by decide), if_neg (by decide), if_pos rfl, herr]
    exact ⟨_, rfl⟩
  · unfold rawHandlerResult at herr
    rw [if_neg (by decide), if_pos rfl] at herr
    unfold dispatch
    rw [if_neg (by decide), if_neg (by decide), if_neg (by decide), if_pos rfl, herr]
    exact ⟨_, rfl⟩
  · unfold rawHandlerResult at herr
    rw [if_neg (by decide), if_neg (by decide), if_pos rfl] at herr
    unfold dispatch
    rw [if_neg (by decide), if_neg (by decide), if_neg (by decide), if_neg (by decide),
        if_pos rfl, herr]
    exact ⟨_, rfl⟩
  · unfold rawHandlerResult at herr
    rw [if_neg (by decide), if_neg (by decide), if_neg (by decide), if_pos rfl] at herr
    unfold dispatch
    rw [if_neg (by decide), if_neg (by decide), if_neg (by decide), if_neg (by decide),
        if_neg (by decide), if_neg (by decide), if_pos rfl, herr]
    exact ⟨_, rfl⟩
  · unfold rawHandlerResult at herr
    rw [if_neg (by decide), if_neg (by decide), if_neg (by decide), if_neg (by decide),
        if_pos rfl] at herr
    unfold dispatch
    rw [if_neg (by decide), if_neg (by decide), if_neg (by decide), if_neg (by decide),
        if_neg (by decide), if_neg (by decide), if_neg (by decide), if_pos rfl, herr]
    exact ⟨_, rfl⟩
  · unfold rawHandlerResult at herr
    rw [if_neg (by decide), if_neg (by decide), if_neg (by decide), if_neg (by decide),
        if_neg (by decide), if_pos rfl] at herr
    unfold dispatch
    rw [if_neg (by decide), if_neg (by decide), if_neg (by decide), if_neg (by decide),
        if_neg (by decide), if_neg (by decide), if_neg (by decide), if_neg (by decide),
        if_pos rfl, herr]
    exact ⟨_, rfl⟩

/-- Witness for claim C7: the change command on an empty book raises the
KeyError and the dispatch converts it into the quoted display string while
continuing the session. -/
theorem handler_errors_displayed_witness :
    ∃ b2, dispatch "change" ["Bob", "0123456789"] ⟨[]⟩ =
      StepOut.cont [pyErrStr (PyErr.keyError "Контакт \x27Bob\x27 не знайдено.")] b2 := by
  exact handler_errors_displayed "change" ["Bob", "0123456789"] ⟨[]⟩
    (PyErr.keyError "Контакт \x27Bob\x27 не знайдено.") (by decide) rfl

/-- Claim C8 counterexample: the empty input line makes parse_input raise
an uncaught ValueError while unpacking the token list, and nothing catches
it, so the process dies instead of printing a message and continuing. -/
theorem empty_line_crash_cex :
    mainStep "" ⟨[]⟩ =
      StepOut.crash (PyErr.valueError "not enough values to unpack (expected at least 1, got 0)") := rfl

/-- Claim C8 (amended): on every input line carrying at least one token,
any error while processing the line becomes a one line message and the
loop continues: the close and exit first tokens (case insensitively) are
the only ones that end the loop, and every other first token yields a cont
step; a line with no tokens (empty or whitespace only) is the exception
the claim missed, raising an uncaught ValueError that ends the process. -/
theorem session_loop_spec (line : String) (book : Book) (cmd : String)
    (args : List String) (hp : pySplitWs line = cmd :: args) :
    ((pyLower cmd = "close" ∨ pyLower cmd = "exit") →
      mainStep line book = StepOut.exit ["Goodbye!"] book) ∧
    (¬(pyLower cmd = "close" ∨ pyLower cmd = "exit") →
      ∃ out b2, mainStep line book = StepOut.cont out b2) := by
  have hparse : parseInput line = Except.ok (pyLower cmd, args) := by
    unfold parseInput
    rw [hp]
  have hm : mainStep line book = dispatch (pyLower cmd) args book := by
    unfold mainStep
    rw [hparse]
  constructor
  · intro hce
    rw [hm]
    unfold dispatch
    rw [if_pos hce]
  · intro hce
    rw [hm]
    exact dispatch_cont _ args book hce

/-- Witness for the amended claim C8: the upper case EXIT line ends the
loop, while a hello line continues it. -/
theorem session_loop_spec_witness :
    mainStep "EXIT" ⟨[]⟩ = StepOut.exit ["Goodbye!"] ⟨[]⟩ ∧
    (∃ out b2, mainStep "hello there" ⟨[]⟩ = StepOut.cont out b2) := by
  refine ⟨(session_loop_spec "EXIT" ⟨[]⟩ "EXIT" [] rfl).1 (Or.inr (by decide)),
          (session_loop_spec "hello there" ⟨[]⟩ "hello" ["there"] rfl).2 (by decide)⟩

/-- Claim C9: saving a book and loading it back yields a book with the
identical record map, in particular identical contact names in order,
identical phone lists in order, and identical birthdays for every record
(pickle serialization is modelled as exact value storage, see saveData). -/
theorem persistence_roundtrip (book : Book) (store : Option Book) :
    loadData (saveData book store) = book ∧
    (loadData (saveData book store)).data.map Prod.fst = book.data.map Prod.fst ∧
    (∀ n, (dictGet (loadData (saveData book store)).data n).map
        (fun r => r.phones.map Phone.value) =
      (dictGet book.data n).map (fun r => r.phones.map Phone.value)) ∧
    (∀ n, (dictGet (loadData (saveData book store)).data n).map Record.birthday =
      (dictGet book.data n).map Record.birthday) := by
  exact ⟨rfl, rfl, fun n => rfl, fun n => rfl⟩

/-! ### Claim theorems: the two birthday queries -/

theorem upcoming_skips_no_birthday (today : PyDate) (days : Nat) :
    ∀ book : List (String × Record), (∀ p ∈ book, p.2.birthday = none) →
      getUpcomingBirthday today days book = Except.ok [] := by
  intro book
  induction book with
  | nil =>
    intro _
    rfl
  | cons p rest ih =>
    intro hall
    obtain ⟨nm, r⟩ := p
    have hb : r.birthday = none := hall (nm, r) (List.mem_cons_self _ _)
    simp only [getUpcomingBirthday, hb]
    exact ih (fun q hq => hall q (List.mem_cons_of_mem _ hq))

theorem upcoming_str_crash (today : PyDate) (days : Nat) :
    ∀ book : List (String × Record),
      (∀ p ∈ book, birthdayIsRawString p = true) →
      book.any hasBirthday = true →
      getUpcomingBirthday today days book =
        Except.error (PyFatal.typeError "str.replace() takes no keyword arguments") := by
  intro book
  induction book with
  | nil =>
    intro _ hsome
    simp at hsome
  | cons p rest ih =>
    intro hall hsome
    obtain ⟨nm, r⟩ := p
    cases hb : r.birthday with
    | some bf =>
      have hraw := hall (nm, r) (List.mem_cons_self _ _)
      simp only [birthdayIsRawString, hb] at hraw
      cases hbv : bf.value with
      | str s =>
        simp only [getUpcomingBirthday, hb, hbv]
      | date d =>
        rw [hbv] at hraw
        simp at hraw
    | none =>
      have hsome2 : rest.any hasBirthday = true := by
        simp only [List.any_cons, hasBirthday, hb, Bool.or_eq_true] at hsome
        rcases hsome with h | h
        · simp at h
        · simpa [hasBirthday] using h
      simp only [getUpcomingBirthday, hb]
      exact ih (fun q hq => hall q (List.mem_cons_of_mem _ hq)) hsome2

/-- Claim C2 (code bug): the window computation the claim describes is
what src lines 154-173 are written to do, but it is unreachable: the
Birthday constructor stores the raw input string in the value slot (claim
C1), so on EVERY book in which some record has a birthday, and for every
today and window width, get_upcoming_birthday raises the uncaught
TypeError of str.replace called with a keyword argument at the first such
record, instead of returning a listing; a book without birthdays still
yields the empty listing.  The hypotheses hold for every book the program
can build, since birthdayInit only ever stores strings. -/
theorem upcoming_birthday_crashes (today : PyDate) (days : Nat)
    (book : List (String × Record))
    (hall : ∀ p ∈ book, birthdayIsRawString p = true)
    (hsome : book.any hasBirthday = true) :
    getUpcomingBirthday today days book =
      Except.error (PyFatal.typeError "str.replace() takes no keyword arguments") ∧
    (∀ book2 : List (String × Record), (∀ p ∈ book2, p.2.birthday = none) →
      getUpcomingBirthday today days book2 = Except.ok []) := by
  exact ⟨upcoming_str_crash today days book hall hsome,
         upcoming_skips_no_birthday today days⟩

/-- Witness for claim C2: a book whose single record got its birthday from
the Birthday constructor itself makes the method raise the TypeError. -/
theorem upcoming_birthday_crashes_witness :
    getUpcomingBirthday ⟨2025, 10, 12⟩ 7
        [("Bob", ⟨"Bob", [], (birthdayInit "01.01.2000").toOption⟩)] =
      Except.error (PyFatal.typeError "str.replace() takes no keyword arguments") := by
  exact (upcoming_birthday_crashes ⟨2025, 10, 12⟩ 7
    [("Bob", ⟨"Bob", [], (birthdayInit "01.01.2000").toOption⟩)]
    (by decide) (by decide)).1

theorem findNext_skips_no_birthday (today : PyDate) (w : Nat) :
    ∀ (book : List (String × Record)) (acc : Option PyDate),
      (∀ p ∈ book, p.2.birthday = none) →
      findNextGo today w acc book = Except.ok acc := by
  intro book
  induction book with
  | nil =>
    intro acc _
    rfl
  | cons p rest ih =>
    intro acc hall
    obtain ⟨nm, r⟩ := p
    have hb : r.birthday = none := hall (nm, r) (List.mem_cons_self _ _)
    simp only [findNextGo, hb]
    exact ih acc (fun q hq => hall q (List.mem_cons_of_mem _ hq))

theorem findNext_str_crash (today : PyDate) (w : Nat) :
    ∀ (book : List (String × Record)) (acc : Option PyDate),
      (∀ p ∈ book, birthdayIsRawString p = true) →
      book.any hasBirthday = true →
      findNextGo today w acc book =
        Except.error (PyFatal.attributeError "\x27str\x27 object has no attribute \x27month\x27") := by
  intro book
  induction book with
  | nil =>
    intro _ _ hsome
    simp at hsome
  | cons p rest ih =>
    intro acc hall hsome
    obtain ⟨nm, r⟩ := p
    cases hb : r.birthday with
    | some bf =>
      have hraw := hall (nm, r) (List.mem_cons_self _ _)
      simp only [birthdayIsRawString, hb] at hraw
      cases hbv : bf.value with
      | str s =>
        simp only [findNextGo, hb, hbv]
      | date d =>
        rw [hbv] at hraw
        simp at hraw
    | none =>
      have hsome2 : rest.any hasBirthday = true := by
        simp only [List.any_cons, hasBirthday, hb, Bool.or_eq_true] at hsome
        rcases hsome with h | h
        · simp at h
        · simpa [hasBirthday] using h
      simp only [findNextGo, hb]
      exact ih acc (fun q hq => hall q (List.mem_cons_of_mem _ hq)) hsome2

/-- Claim C10 (code bug): because the Birthday constructor stores the raw
string (claim C1), find_next_birthday raises the uncaught AttributeError
of .month on a str at the first record holding a birthday, on EVERY such
book, for every today and weekday argument, instead of returning the
earliest adjusted date; a book without birthdays still returns nothing.
The last conjunct certifies the one part of the claim the loop itself
does satisfy: for a weekday argument in 0..6 the day by day advance of any
valid date reaches the requested weekday within at most 6 steps, and extra
fuel beyond 7 changes nothing, so the unbounded source loop terminates
within 7 iterations where it runs at all. -/
theorem find_next_birthday_crashes (today : PyDate) (w : Nat)
    (book : List (String × Record))
    (hall : ∀ p ∈ book, birthdayIsRawString p = true)
    (hsome : book.any hasBirthday = true) :
    findNextBirthday today w book =
      Except.error (PyFatal.attributeError "\x27str\x27 object has no attribute \x27month\x27") ∧
    (∀ book2 : List (String × Record), (∀ p ∈ book2, p.2.birthday = none) →
      findNextBirthday today w book2 = Except.ok none) ∧
    (w ≤ 6 → ∀ d, validDateB d = true →
      ∃ k, k ≤ 6 ∧ whileWeekday w d = addDays d k ∧ weekday (addDays d k) = w ∧
        ∀ j, advanceLoop (7 + j) w d = advanceLoop 7 w d) := by
  refine ⟨findNext_str_crash today w book none hall hsome,
          fun book2 h2 => findNext_skips_no_birthday today w book2 none h2, ?_⟩
  intro hw d hd
  have hwd := weekday_lt_7 d
  refine ⟨(w + 7 - weekday d) % 7, by omega,
    advanceLoop_correct w hw 7 d hd (by omega), ?_,
    advanceLoop_stable w hw d hd⟩
  rw [weekday_addDays d hd]
  omega

/-- Witness for claim C10: a book whose single record got its birthday from
the Birthday constructor itself makes the method raise the AttributeError. -/
theorem find_next_birthday_crashes_witness :
    findNextBirthday ⟨2025, 10, 12⟩ 2
        [("Bob", ⟨"Bob", [], (birthdayInit "01.01.2000").toOption⟩)] =
      Except.error (PyFatal.attributeError "\x27str\x27 object has no attribute \x27month\x27") := by
  exact (find_next_birthday_crashes ⟨2025, 10, 12⟩ 2
    [("Bob", ⟨"Bob", [], (birthdayInit "01.01.2000").toOption⟩)]
    (by decide) (by decide)).1

end HW2
